import Mathlib

/-!
Verification of the core of the AV1 super daemon (`crates/daemon`, `crates/config`).

The Rust sources are shallowly embedded: pure Rust functions become Lean
functions over `Nat`, `Int`, `ℚ` and `String`; `f32`/`f64` arithmetic is
embedded as exact rational arithmetic; fallible operations return
`Option`/`Except`; the filesystem effects of `replace.rs` are modelled by an
explicit finite-map state together with a schedule of success/failure flags
for the individual `std::fs` primitives.
-/

set_option maxRecDepth 10000

/-! ## String helpers (Rust `str::contains`, `str::to_lowercase`) -/

/-- Check whether `pat` is a prefix of `hay` (on character lists). -/
def listStartsWith : List Char → List Char → Bool
  | _, [] => true
  | [], _ :: _ => false
  | h :: hs, p :: ps => h == p && listStartsWith hs ps

/-- Check whether `pat` occurs as a contiguous sublist of `hay`.
This embeds Rust `str::contains` for ASCII needles. -/
def listContainsSub (hay pat : List Char) : Bool :=
  match hay with
  | [] => pat.isEmpty
  | _ :: t => listStartsWith hay pat || listContainsSub t pat

/-- Rust `str::contains(pat)` on strings. -/
def strContains (hay pat : String) : Bool :=
  listContainsSub hay.data pat.data

/-- Rust `str::to_lowercase` (character-wise; identical for ASCII data). -/
def lowerStr (s : String) : String :=
  String.mk (s.data.map Char.toLower)

/-! ## `gates.rs`: probe data model and `check_gates` -/

/-- Information about a video stream from ffprobe (`gates.rs`, `VideoStream`).
`bitrate_kbps : Option f32` is embedded with `ℚ` for the float. -/
structure VideoStream where
  codec_name : String
  width : Nat
  height : Nat
  bitrate_kbps : Option ℚ
deriving DecidableEq, Repr

/-- Information about an audio stream from ffprobe (`gates.rs`, `AudioStream`). -/
structure AudioStream where
  codec_name : String
  channels : Nat
deriving DecidableEq, Repr

/-- Format information from ffprobe (`gates.rs`, `FormatInfo`). -/
structure FormatInfo where
  duration_secs : ℚ
  size_bytes : Nat
deriving DecidableEq, Repr

/-- Result of probing a video file (`gates.rs`, `ProbeResult`). -/
structure ProbeResult where
  video_streams : List VideoStream
  audio_streams : List AudioStream
  format : FormatInfo
deriving DecidableEq, Repr

/-- Configuration for gate checks (`gates.rs`, `GatesConfig`). -/
structure GatesConfig where
  min_bytes : Nat
  max_size_ratio : ℚ
  keep_original : Bool
deriving DecidableEq, Repr

/-- Result of gate checking (`gates.rs`, `GateResult`). -/
inductive GateResult where
  | Pass (probe : ProbeResult)
  | Skip (reason : String)
deriving DecidableEq, Repr

/-- Embedding of `gates.rs::check_gates`: the three admission gates, in source
order, with the source reason strings (the second reason is built with
`format!`, reproduced by concatenation). -/
def check_gates (probe : ProbeResult) (file_size : Nat) (cfg : GatesConfig) : GateResult :=
  if probe.video_streams.isEmpty then
    GateResult.Skip "no video streams"
  else if file_size < cfg.min_bytes then
    GateResult.Skip
      ("below minimum size (" ++ toString file_size ++ " bytes < "
        ++ toString cfg.min_bytes ++ " bytes)")
  else
    match probe.video_streams.head? with
    | some first_video =>
        if strContains (lowerStr first_video.codec_name) "av1" then
          GateResult.Skip "already AV1"
        else
          GateResult.Pass probe
    | none => GateResult.Pass probe

/-! ## `classify.rs`: source classification -/

/-- Classification of video source type (`classify.rs`, `SourceType`). -/
inductive SourceType where
  | WebLike
  | DiscLike
  | Unknown
deriving DecidableEq, Repr

/-- Keywords that indicate web-sourced content (`classify.rs`, `WEB_KEYWORDS`),
verbatim from the source. -/
def WEB_KEYWORDS : List String :=
  ["webrip", "web-rip", "webdl", "web-dl", "web.dl", "web.rip",
   "amzn", "amazon", "nf", "netflix", "hulu", "dsnp", "disney",
   "atvp", "appletv", "hmax", "hbo", "pcok", "peacock",
   "pmtp", "paramount", "stan", "it", "hdtv", "pdtv",
   "webhd", "web", "streaming"]

/-- Keywords that indicate disc-sourced content (`classify.rs`, `DISC_KEYWORDS`),
verbatim from the source. -/
def DISC_KEYWORDS : List String :=
  ["bluray", "blu-ray", "bdrip", "bd-rip", "brrip", "br-rip",
   "remux", "bdremux", "bd.remux", "dvdrip", "dvd-rip", "dvd",
   "uhd", "ultrahd", "4k.uhd", "hddvd", "hd-dvd"]

/-- Embedding of `classify.rs::contains_any_keyword`. -/
def contains_any_keyword (path_str : String) (keywords : List String) : Bool :=
  keywords.any (fun kw => strContains path_str kw)

/-- Embedding of `classify.rs::classify_by_bitrate_ratio` with the float
arithmetic carried out in `ℚ` (threshold `BITRATE_THRESHOLD_KBPS_PER_MP = 6000`). -/
def classify_by_bitrate_ratio (probe : ProbeResult) : SourceType :=
  match probe.video_streams.head? with
  | none => SourceType.Unknown
  | some video_stream =>
    match video_stream.bitrate_kbps with
    | none => SourceType.Unknown
    | some br =>
      if br > 0 then
        let width : ℚ := video_stream.width
        let height : ℚ := video_stream.height
        if width ≤ 0 ∨ height ≤ 0 then SourceType.Unknown
        else
          let megapixels : ℚ := width * height / 1000000
          if megapixels ≤ 0 then SourceType.Unknown
          else if br / megapixels < 6000 then SourceType.WebLike
          else SourceType.DiscLike
      else SourceType.Unknown

/-- Embedding of `classify.rs::classify_source` (paths are modelled as the
string produced by `to_string_lossy`). -/
def classify_source (path : String) (probe : ProbeResult) : SourceType :=
  let path_str := lowerStr path
  if contains_any_keyword path_str WEB_KEYWORDS then SourceType.WebLike
  else if contains_any_keyword path_str DISC_KEYWORDS then SourceType.DiscLike
  else classify_by_bitrate_ratio probe

/-! ## `size_gate.rs`: post-encode size gate -/

/-- Result of the size gate check (`size_gate.rs`, `SizeGateResult`).
The `ratio` field of `Reject` holds `f32::INFINITY` in the source when
`original_bytes = 0`; the embedded field uses `none` for that infinity and
`some q` for a finite ratio. -/
inductive SizeGateResult where
  | Accept
  | Reject (original_bytes : Nat) (output_bytes : Nat) (ratio : Option ℚ)
deriving DecidableEq, Repr

/-- Embedding of `size_gate.rs::check_size_gate`. The source computes
`threshold = (original_bytes as f64 * max_ratio as f64) as u64`; the `as u64`
cast of a non-negative float truncates, i.e. takes the floor. -/
def check_size_gate (original_bytes output_bytes : Nat) (max_ratio : ℚ) : SizeGateResult :=
  let threshold : Nat := (⌊(original_bytes : ℚ) * max_ratio⌋).toNat
  if output_bytes ≥ threshold then
    SizeGateResult.Reject original_bytes output_bytes
      (if original_bytes > 0 then some ((output_bytes : ℚ) / (original_bytes : ℚ)) else none)
  else
    SizeGateResult.Accept

/-! ## `config.rs` and `concurrency.rs`: configuration and the planner -/

/-- CPU-related configuration (`config.rs`, `CpuConfig`). -/
structure CpuConfig where
  logical_cores : Option Nat
  target_cpu_utilization : ℚ
deriving DecidableEq, Repr

/-- Av1an-related configuration (`config.rs`, `Av1anConfig`). -/
structure Av1anConfig where
  workers_per_job : Nat
  max_concurrent_jobs : Nat
deriving DecidableEq, Repr

/-- Encoder safety configuration (`config.rs`, `EncoderSafetyConfig`). -/
structure EncoderSafetyConfig where
  disallow_hardware_encoding : Bool
deriving DecidableEq, Repr

/-- Main configuration structure (`config.rs`, `Config`). -/
structure Config where
  cpu : CpuConfig
  av1an : Av1anConfig
  encoder_safety : EncoderSafetyConfig
deriving DecidableEq, Repr

/-- Concurrency plan (`concurrency.rs`, `ConcurrencyPlan`). -/
structure ConcurrencyPlan where
  total_cores : Nat
  target_threads : Nat
  av1an_workers : Nat
  max_concurrent_jobs : Nat
deriving DecidableEq, Repr

/-- Embedding of `concurrency.rs::derive_workers`. -/
def derive_workers (cores : Nat) : Nat :=
  if cores ≥ 32 then 8 else 4

/-- Embedding of `concurrency.rs::derive_max_jobs`. -/
def derive_max_jobs (cores : Nat) : Nat :=
  if cores ≥ 24 then 1 else 2

/-- Embedding of `concurrency.rs::clamp_utilization` (`f32::clamp(0.5, 1.0)`). -/
def clamp_utilization (util : ℚ) : ℚ :=
  if util < 0.5 then 0.5 else if util > 1 then 1 else util

/-- Rust `f32::round` on a non-negative value followed by the `as u32` cast:
round half away from zero, i.e. the floor of `q + 1/2`. -/
def rustRound (q : ℚ) : Nat :=
  (⌊q + 1 / 2⌋).toNat

/-- Embedding of `concurrency.rs::ConcurrencyPlan::derive`.  The call
`num_cpus::get()` used when `logical_cores` is absent is a parameter
`detected_cores`. -/
def ConcurrencyPlan.derive (cfg : Config) (detected_cores : Nat) : ConcurrencyPlan :=
  let total_cores := cfg.cpu.logical_cores.getD detected_cores
  let clamped_utilization := clamp_utilization cfg.cpu.target_cpu_utilization
  let target_threads := rustRound ((total_cores : ℚ) * clamped_utilization)
  let av1an_workers :=
    if cfg.av1an.workers_per_job > 0 then cfg.av1an.workers_per_job
    else derive_workers total_cores
  let max_concurrent_jobs :=
    if cfg.av1an.max_concurrent_jobs > 0 then cfg.av1an.max_concurrent_jobs
    else derive_max_jobs total_cores
  { total_cores := total_cores
    target_threads := target_threads
    av1an_workers := av1an_workers
    max_concurrent_jobs := max_concurrent_jobs }

/-- Embedding of `concurrency.rs::derive_plan`. -/
def derive_plan (cfg : Config) (detected_cores : Nat) : ConcurrencyPlan :=
  ConcurrencyPlan.derive cfg detected_cores

/-! ## `startup.rs`: preflight hardware-flag checks -/

/-- Forbidden hardware encoder flags (`startup.rs`, `FORBIDDEN_HW_FLAGS`). -/
def FORBIDDEN_HW_FLAGS : List String :=
  ["nvenc", "qsv", "vaapi", "cuda", "amf", "vce", "qsvenc"]

/-- Error type for startup checks (`startup.rs`, `StartupError`).  The
`format!`-built message of `HardwareEncodingDetected` is represented by its
two dynamic components (detected flag, offending argument). -/
inductive StartupError where
  | Av1anUnavailable (msg : String)
  | FfmpegVersion (msg : String)
  | HardwareEncodingDetected (flag : String) (arg : String)
deriving DecidableEq, Repr

/-- Embedding of `startup.rs::detect_hardware_flag`: first forbidden flag that
occurs in the lowercased string, if any. -/
def detect_hardware_flag (s : String) : Option String :=
  let lower := lowerStr s
  FORBIDDEN_HW_FLAGS.find? (fun flag => strContains lower flag)

/-- Embedding of `startup.rs::check_args_for_hardware_flags`. -/
def check_args_for_hardware_flags (args : List String)
    (disallow_hardware_encoding : Bool) : Except StartupError Unit :=
  if !disallow_hardware_encoding then Except.ok ()
  else
    match args.findSome? (fun arg => (detect_hardware_flag arg).map (fun flag => (flag, arg))) with
    | some (flag, arg) => Except.error (StartupError.HardwareEncodingDetected flag arg)
    | none => Except.ok ()

/-- Embedding of `startup.rs::assert_software_only`.  The source function
returns `Ok(())` without examining anything beyond the boolean: its body is
the early return for the disabled flag followed by an unconditional `Ok(())`
(the comment in the source defers the actual configuration scan). -/
def assert_software_only (cfg : Config) : Except StartupError Unit :=
  if !cfg.encoder_safety.disallow_hardware_encoding then Except.ok ()
  else Except.ok ()

/-! ## `replace.rs`: atomic replacement over an explicit filesystem model

The filesystem is a map from paths to file contents.  Each `std::fs`
primitive used by `atomic_replace` may fail; besides the inherent failure
when the source file is missing, an `IoFlags` schedule says whether each
individual call succeeds, modelling arbitrary I/O errors (permissions,
cross-device renames, full disks, ...).  A primitive returns the new
filesystem and whether it succeeded; on failure the filesystem is unchanged
(the primitives used here are atomic at this granularity). -/

/-- Filesystem state: contents (if any) at each path. -/
def FS : Type := String → Option String

/-- Success/failure schedule for the individual `std::fs` calls made by one
run of `atomic_replace`, in source order. -/
structure IoFlags where
  rename_backup_ok : Bool
  copy_backup_ok : Bool
  remove_original_ok : Bool
  copy_in_ok : Bool
  restore_rename_ok : Bool
  remove_backup_ok : Bool
deriving DecidableEq, Repr

/-- Model of `std::fs::rename src dst`: fails when `src` is absent or when the
schedule says so; on success the content moves from `src` to `dst`. -/
def fsRename (fs : FS) (ok : Bool) (src dst : String) : FS × Bool :=
  match fs src with
  | none => (fs, false)
  | some c =>
    if ok then
      ((fun p => if p = dst then some c else if p = src then none else fs p), true)
    else (fs, false)

/-- Model of `std::fs::copy src dst`: fails when `src` is absent or when the
schedule says so; on success `dst` receives the content of `src`. -/
def fsCopy (fs : FS) (ok : Bool) (src dst : String) : FS × Bool :=
  match fs src with
  | none => (fs, false)
  | some c =>
    if ok then
      ((fun p => if p = dst then some c else fs p), true)
    else (fs, false)

/-- Model of `std::fs::remove_file path`: fails when `path` is absent or when
the schedule says so. -/
def fsRemove (fs : FS) (ok : Bool) (path : String) : FS × Bool :=
  match fs path with
  | none => (fs, false)
  | some _ =>
    if ok then ((fun p => if p = path then none else fs p), true)
    else (fs, false)

/-- Errors during file replacement (`replace.rs`, `ReplaceError`); the wrapped
`std::io::Error` payloads are elided. -/
inductive ReplaceError where
  | BackupFailed
  | CopyFailed
  | DeleteBackupFailed
deriving DecidableEq, Repr

/-- Embedding of `replace.rs::backup_path`: appends `".orig.<unix_seconds>"`. -/
def backup_path (original : String) (timestamp : Nat) : String :=
  original ++ ".orig." ++ toString timestamp

/-- Embedding of `replace.rs::atomic_replace` over the filesystem model.
Control flow follows the source line by line: rename to backup with a
copy-then-delete fallback (both fallback errors map to `BackupFailed`), copy
the encoded file in (on failure a restoring rename is attempted and its error
discarded, then `CopyFailed` is returned), and finally delete the backup when
`keep_original` is false (failure maps to `DeleteBackupFailed`). -/
def atomic_replace (fs : FS) (fl : IoFlags) (original_path encoded_path : String)
    (timestamp : Nat) (keep_original : Bool) : FS × Option ReplaceError :=
  let backup := backup_path original_path timestamp
  let r1 := fsRename fs fl.rename_backup_ok original_path backup
  let afterBackup : FS × Bool :=
    if r1.2 then (r1.1, true)
    else
      let c1 := fsCopy fs fl.copy_backup_ok original_path backup
      if c1.2 then fsRemove c1.1 fl.remove_original_ok original_path
      else (c1.1, false)
  if afterBackup.2 then
    let fs1 := afterBackup.1
    let c2 := fsCopy fs1 fl.copy_in_ok encoded_path original_path
    if c2.2 then
      if keep_original then (c2.1, none)
      else
        let rb := fsRemove c2.1 fl.remove_backup_ok backup
        if rb.2 then (rb.1, none) else (rb.1, some ReplaceError.DeleteBackupFailed)
    else
      let rr := fsRename c2.1 fl.restore_rename_ok backup original_path
      (rr.1, some ReplaceError.CopyFailed)
  else (afterBackup.1, some ReplaceError.BackupFailed)

/-! ## `metrics.rs` and `job_executor.rs`: metrics snapshot and updates -/

/-- Per-job metrics (`metrics.rs`, `JobMetrics`); `f32` fields are embedded
as `ℚ`. -/
structure JobMetrics where
  id : String
  input_path : String
  stage : String
  progress : ℚ
  fps : ℚ
  bitrate_kbps : ℚ
  crf : Nat
  encoder : String
  workers : Nat
  est_remaining_secs : ℚ
  frames_encoded : Nat
  total_frames : Nat
  size_in_bytes_before : Nat
  size_in_bytes_after : Nat
  vmaf : Option ℚ
  psnr : Option ℚ
  ssim : Option ℚ
deriving DecidableEq, Repr

/-- System-level metrics (`metrics.rs`, `SystemMetrics`). -/
structure SystemMetrics where
  cpu_usage_percent : ℚ
  mem_usage_percent : ℚ
  load_avg_1 : ℚ
  load_avg_5 : ℚ
  load_avg_15 : ℚ
deriving DecidableEq, Repr

/-- Complete metrics snapshot (`metrics.rs`, `MetricsSnapshot`). -/
structure MetricsSnapshot where
  timestamp_unix_ms : Int
  jobs : List JobMetrics
  system : SystemMetrics
  queue_len : Nat
  running_jobs : Nat
  completed_jobs : Nat
  failed_jobs : Nat
  total_bytes_encoded : Nat
deriving DecidableEq, Repr

/-- Default `SystemMetrics` (`metrics.rs`, `impl Default for SystemMetrics`). -/
def SystemMetrics.default : SystemMetrics :=
  { cpu_usage_percent := 0, mem_usage_percent := 0,
    load_avg_1 := 0, load_avg_5 := 0, load_avg_15 := 0 }

/-- Default `MetricsSnapshot` (`metrics.rs`, `impl Default for MetricsSnapshot`). -/
def MetricsSnapshot.default : MetricsSnapshot :=
  { timestamp_unix_ms := 0, jobs := [], system := SystemMetrics.default,
    queue_len := 0, running_jobs := 0, completed_jobs := 0, failed_jobs := 0,
    total_bytes_encoded := 0 }

/-- Job pipeline state (`job_executor.rs`, `JobState`). -/
inductive JobState where
  | Queued
  | Encoding
  | Validating
  | SizeGating
  | Replacing
  | Completed
  | Skipped (reason : String)
  | Failed (reason : String)
deriving DecidableEq, Repr

/-- Embedding of `job_executor.rs::JobState::as_str`. -/
def JobState.as_str : JobState → String
  | JobState.Queued => "queued"
  | JobState.Encoding => "encoding"
  | JobState.Validating => "validating"
  | JobState.SizeGating => "size_gating"
  | JobState.Replacing => "replacing"
  | JobState.Completed => "completed"
  | JobState.Skipped _ => "skipped"
  | JobState.Failed _ => "failed"

/-- Executor job (`job_executor.rs`, `Job`). -/
structure ExecutorJob where
  id : String
  input_path : String
  output_path : String
  state : JobState
  total_frames : Nat
  size_in_bytes_before : Nat
deriving DecidableEq, Repr

/-- Embedding of `job_executor.rs::Job::to_metrics`. -/
def ExecutorJob.to_metrics (job : ExecutorJob) (workers : Nat) : JobMetrics :=
  { id := job.id
    input_path := job.input_path
    stage := job.state.as_str
    progress := 0
    fps := 0
    bitrate_kbps := 0
    crf := 8
    encoder := "svt-av1"
    workers := workers
    est_remaining_secs := 0
    frames_encoded := 0
    total_frames := job.total_frames
    size_in_bytes_before := job.size_in_bytes_before
    size_in_bytes_after := 0
    vmaf := none
    psnr := none
    ssim := none }

/-- Replace the first entry with the same `id`, or append at the end; this is
the `iter_mut().find(...)`-or-`push` upsert of
`job_executor.rs::update_job_metrics`. -/
def upsertJobMetrics : List JobMetrics → JobMetrics → List JobMetrics
  | [], jm => [jm]
  | j :: rest, jm =>
    if j.id = jm.id then jm :: rest else j :: upsertJobMetrics rest jm

/-- Embedding of `job_executor.rs::JobExecutor::update_job_metrics`: upsert
the job entry, then recompute `running_jobs` as the number of entries whose
stage is `"encoding"`, `"validating"` or `"replacing"` (the filter in the
source lists exactly these three strings). `workers` stands for
`self.concurrency_plan.av1an_workers`. -/
def update_job_metrics (metrics : MetricsSnapshot) (job : ExecutorJob)
    (workers : Nat) : MetricsSnapshot :=
  let job_metrics := job.to_metrics workers
  let jobs := upsertJobMetrics metrics.jobs job_metrics
  let running_jobs :=
    (jobs.filter (fun j =>
      j.stage == "encoding" || j.stage == "validating" || j.stage == "replacing")).length
  { metrics with jobs := jobs, running_jobs := running_jobs }

/-- Count of job entries in the running stages named by the specification.
Modelled from the spec: the invariant in spec section 3 counts the stages
`encoding`, `validating`, `size_gating` and `replacing`; this is the
specification side of claim C1, to be compared with `update_job_metrics`. -/
def spec_running_count (jobs : List JobMetrics) : Nat :=
  (jobs.filter (fun j =>
    j.stage == "encoding" || j.stage == "validating" || j.stage == "size_gating"
      || j.stage == "replacing")).length

/-! ## `jobs.rs`: persisted jobs and their serde JSON representation

`serde_json` values are embedded as a small JSON AST (`Json`); JSON numbers
are `ℚ` (exact values of the integers and floats the daemon writes).  The
encoder mirrors the `#[derive(Serialize)]` output for each type (fields in
declaration order, `rename_all = "snake_case"` on the two enums, plain
variant names for `SourceType`, `null` for `None`), and the decoder mirrors
the corresponding `Deserialize` impls. -/

/-- JSON values as produced and consumed by serde_json. -/
inductive Json where
  | null
  | jbool (b : Bool)
  | num (q : ℚ)
  | str (s : String)
  | arr (elems : List Json)
  | obj (fields : List (String × Json))

/-- Stage of a job in the encoding pipeline (`jobs.rs`, `JobStage`). -/
inductive JobStage where
  | Queued
  | Encoding
  | Validating
  | SizeGating
  | Replacing
  | Complete
deriving DecidableEq, Repr

/-- Status of a job (`jobs.rs`, `JobStatus`). -/
inductive JobStatus where
  | Pending
  | Running
  | Success
  | Failed
  | Skipped
deriving DecidableEq, Repr

/-- Persisted job record (`jobs.rs`, `Job`); `PathBuf` fields are strings and
the `i64` timestamps are `Int`. -/
structure Job where
  id : String
  input_path : String
  output_path : String
  stage : JobStage
  status : JobStatus
  source_type : SourceType
  probe_result : ProbeResult
  created_at : Int
  updated_at : Int
  error_reason : Option String
deriving DecidableEq, Repr

/-- Serde name of a `JobStage` value (`rename_all = "snake_case"`). -/
def JobStage.serdeName : JobStage → String
  | JobStage.Queued => "queued"
  | JobStage.Encoding => "encoding"
  | JobStage.Validating => "validating"
  | JobStage.SizeGating => "size_gating"
  | JobStage.Replacing => "replacing"
  | JobStage.Complete => "complete"

/-- Serde name of a `JobStatus` value (`rename_all = "snake_case"`). -/
def JobStatus.serdeName : JobStatus → String
  | JobStatus.Pending => "pending"
  | JobStatus.Running => "running"
  | JobStatus.Success => "success"
  | JobStatus.Failed => "failed"
  | JobStatus.Skipped => "skipped"

/-- Serde name of a `SourceType` value (no rename attribute in `classify.rs`,
so the Rust variant names are used). -/
def SourceType.serdeName : SourceType → String
  | SourceType.WebLike => "WebLike"
  | SourceType.DiscLike => "DiscLike"
  | SourceType.Unknown => "Unknown"

/-- Serialize an optional number (`Option<f32>`): `null` or the number. -/
def encOptNum : Option ℚ → Json
  | none => Json.null
  | some q => Json.num q

/-- Serialize an optional string (`Option<String>`): `null` or the string. -/
def encOptStr : Option String → Json
  | none => Json.null
  | some s => Json.str s

/-- Serde serialization of a `VideoStream`. -/
def VideoStream.toJson (v : VideoStream) : Json :=
  Json.obj
    [("codec_name", Json.str v.codec_name),
     ("width", Json.num (v.width : ℚ)),
     ("height", Json.num (v.height : ℚ)),
     ("bitrate_kbps", encOptNum v.bitrate_kbps)]

/-- Serde serialization of an `AudioStream`. -/
def AudioStream.toJson (a : AudioStream) : Json :=
  Json.obj
    [("codec_name", Json.str a.codec_name),
     ("channels", Json.num (a.channels : ℚ))]

/-- Serde serialization of a `FormatInfo`. -/
def FormatInfo.toJson (f : FormatInfo) : Json :=
  Json.obj
    [("duration_secs", Json.num f.duration_secs),
     ("size_bytes", Json.num (f.size_bytes : ℚ))]

/-- Serde serialization of a `ProbeResult`. -/
def ProbeResult.toJson (p : ProbeResult) : Json :=
  Json.obj
    [("video_streams", Json.arr (p.video_streams.map VideoStream.toJson)),
     ("audio_streams", Json.arr (p.audio_streams.map AudioStream.toJson)),
     ("format", p.format.toJson)]

/-- Serde serialization of a `Job`, as written by `jobs.rs::save_job`. -/
def Job.toJson (job : Job) : Json :=
  Json.obj
    [("id", Json.str job.id),
     ("input_path", Json.str job.input_path),
     ("output_path", Json.str job.output_path),
     ("stage", Json.str job.stage.serdeName),
     ("status", Json.str job.status.serdeName),
     ("source_type", Json.str job.source_type.serdeName),
     ("probe_result", job.probe_result.toJson),
     ("created_at", Json.num (job.created_at : ℚ)),
     ("updated_at", Json.num (job.updated_at : ℚ)),
     ("error_reason", encOptStr job.error_reason)]

/-- Look up a field of a JSON object by name (first occurrence). -/
def jLookup : List (String × Json) → String → Option Json
  | [], _ => none
  | (k, v) :: rest, key => if k = key then some v else jLookup rest key

/-- Read a JSON value as an object. -/
def Json.asObj : Json → Option (List (String × Json))
  | Json.obj fields => some fields
  | _ => none

/-- Read a JSON value as an array. -/
def Json.asArr : Json → Option (List Json)
  | Json.arr elems => some elems
  | _ => none

/-- Read a JSON value as a string. -/
def Json.asStr : Json → Option String
  | Json.str s => some s
  | _ => none

/-- Read a JSON value as an unsigned integer (`u32`/`u64` deserialization). -/
def Json.asNat : Json → Option Nat
  | Json.num q => if q.den = 1 ∧ 0 ≤ q.num then some q.num.toNat else none
  | _ => none

/-- Read a JSON value as a signed integer (`i64` deserialization). -/
def Json.asInt : Json → Option Int
  | Json.num q => if q.den = 1 then some q.num else none
  | _ => none

/-- Read a JSON value as a number (`f32`/`f64` deserialization). -/
def Json.asNum : Json → Option ℚ
  | Json.num q => some q
  | _ => none

/-- Read a JSON value as an optional number (`Option<f32>`). -/
def Json.asOptNum : Json → Option (Option ℚ)
  | Json.null => some none
  | Json.num q => some (some q)
  | _ => none

/-- Read a JSON value as an optional string (`Option<String>`). -/
def Json.asOptStr : Json → Option (Option String)
  | Json.null => some none
  | Json.str s => some (some s)
  | _ => none

/-- Deserialize every element of a JSON array (serde sequence semantics:
the first failing element fails the whole sequence). -/
def decodeList {α : Type} (g : Json → Option α) : List Json → Option (List α)
  | [] => some []
  | j :: t =>
    match g j with
    | none => none
    | some a =>
      match decodeList g t with
      | none => none
      | some rest => some (a :: rest)

/-- Serde deserialization of a `VideoStream`. -/
def decodeVideoStream (j : Json) : Option VideoStream := do
  let fields ← j.asObj
  let codec_name ← (jLookup fields "codec_name").bind Json.asStr
  let width ← (jLookup fields "width").bind Json.asNat
  let height ← (jLookup fields "height").bind Json.asNat
  let bitrate_kbps ← (jLookup fields "bitrate_kbps").bind Json.asOptNum
  pure { codec_name := codec_name, width := width, height := height,
         bitrate_kbps := bitrate_kbps }

/-- Serde deserialization of an `AudioStream`. -/
def decodeAudioStream (j : Json) : Option AudioStream := do
  let fields ← j.asObj
  let codec_name ← (jLookup fields "codec_name").bind Json.asStr
  let channels ← (jLookup fields "channels").bind Json.asNat
  pure { codec_name := codec_name, channels := channels }

/-- Serde deserialization of a `FormatInfo`. -/
def decodeFormatInfo (j : Json) : Option FormatInfo := do
  let fields ← j.asObj
  let duration_secs ← (jLookup fields "duration_secs").bind Json.asNum
  let size_bytes ← (jLookup fields "size_bytes").bind Json.asNat
  pure { duration_secs := duration_secs, size_bytes := size_bytes }

/-- Serde deserialization of a `ProbeResult`. -/
def decodeProbeResult (j : Json) : Option ProbeResult := do
  let fields ← j.asObj
  let vs ← (jLookup fields "video_streams").bind Json.asArr
  let video_streams ← decodeList decodeVideoStream vs
  let aus ← (jLookup fields "audio_streams").bind Json.asArr
  let audio_streams ← decodeList decodeAudioStream aus
  let fmt ← (jLookup fields "format").bind decodeFormatInfo
  pure { video_streams := video_streams, audio_streams := audio_streams,
         format := fmt }

/-- Serde deserialization of a `JobStage` from its snake_case name. -/
def decodeJobStage (j : Json) : Option JobStage := do
  let s ← j.asStr
  if s = "queued" then pure JobStage.Queued
  else if s = "encoding" then pure JobStage.Encoding
  else if s = "validating" then pure JobStage.Validating
  else if s = "size_gating" then pure JobStage.SizeGating
  else if s = "replacing" then pure JobStage.Replacing
  else if s = "complete" then pure JobStage.Complete
  else none

/-- Serde deserialization of a `JobStatus` from its snake_case name. -/
def decodeJobStatus (j : Json) : Option JobStatus := do
  let s ← j.asStr
  if s = "pending" then pure JobStatus.Pending
  else if s = "running" then pure JobStatus.Running
  else if s = "success" then pure JobStatus.Success
  else if s = "failed" then pure JobStatus.Failed
  else if s = "skipped" then pure JobStatus.Skipped
  else none

/-- Serde deserialization of a `SourceType` from its variant name. -/
def decodeSourceType (j : Json) : Option SourceType := do
  let s ← j.asStr
  if s = "WebLike" then pure SourceType.WebLike
  else if s = "DiscLike" then pure SourceType.DiscLike
  else if s = "Unknown" then pure SourceType.Unknown
  else none

/-- Serde deserialization of a `Job`, as read by `jobs.rs::load_jobs`. -/
def decodeJob (j : Json) : Option Job := do
  let fields ← j.asObj
  let id ← (jLookup fields "id").bind Json.asStr
  let input_path ← (jLookup fields "input_path").bind Json.asStr
  let output_path ← (jLookup fields "output_path").bind Json.asStr
  let stage ← (jLookup fields "stage").bind decodeJobStage
  let status ← (jLookup fields "status").bind decodeJobStatus
  let source_type ← (jLookup fields "source_type").bind decodeSourceType
  let probe_result ← (jLookup fields "probe_result").bind decodeProbeResult
  let created_at ← (jLookup fields "created_at").bind Json.asInt
  let updated_at ← (jLookup fields "updated_at").bind Json.asInt
  let error_reason ← (jLookup fields "error_reason").bind Json.asOptStr
  pure { id := id, input_path := input_path, output_path := output_path,
         stage := stage, status := status, source_type := source_type,
         probe_result := probe_result, created_at := created_at,
         updated_at := updated_at, error_reason := error_reason }

/-! ## `jobs.rs::load_jobs` over a model of the state directory -/

/-- Model of the job state directory for `load_jobs`: whether the directory
exists, whether `read_dir` succeeds on it, and its entries as pairs of file
name and parsed JSON content (files whose content is not valid JSON are
subsumed by entries whose `Json` fails `decodeJob`, since both are skipped
identically by the source). -/
structure StateDir where
  dir_exists : Bool
  read_dir_ok : Bool
  entries : List (String × Json)

/-- Rust `Path::extension` on a file name: the part after the last dot,
unless the name has no dot or consists of a single leading-dot component. -/
def fileExtension (name : String) : Option String :=
  match name.splitOn "." with
  | [] => none
  | [_] => none
  | first :: rest =>
    if first = "" ∧ rest.length = 1 then none
    else rest.getLast?

/-- Embedding of `jobs.rs::load_jobs`: missing directory yields `Ok([])`;
otherwise each `*.json` entry is parsed, and entries that fail to parse are
skipped (logged in the source). -/
def load_jobs (dir : StateDir) : Except String (List Job) :=
  if !dir.dir_exists then Except.ok []
  else if !dir.read_dir_ok then Except.error "read_dir failed"
  else
    Except.ok (dir.entries.filterMap (fun e =>
      if fileExtension e.1 = some "json" then decodeJob e.2 else none))

/-- Embedding of `jobs.rs::Job::is_active`. -/
def Job.is_active (job : Job) : Bool :=
  match job.status with
  | JobStatus.Pending => true
  | JobStatus.Running => true
  | _ => false

/-- Embedding of `jobs.rs::job_exists_for_path`. -/
def job_exists_for_path (jobs : List Job) (path : String) : Bool :=
  jobs.any (fun job => job.input_path == path && job.is_active)

/-! ## Concrete instances used by counterexamples and witnesses -/

/-- Count of job-metric entries in the stages the source filter actually
names (`"encoding"`, `"validating"`, `"replacing"`). -/
def amended_running_count (jobs : List JobMetrics) : Nat :=
  (jobs.filter (fun j =>
    j.stage == "encoding" || j.stage == "validating" || j.stage == "replacing")).length

/-- Concrete filesystem for the C3 counterexample and witness: the original
file and the encoded output both exist. -/
def c3fs : FS := fun p =>
  if p = "/lib/a.mkv" then some "ORIGINALBYTES"
  else if p = "/tmp/out.mkv" then some "ENCODEDBYTES"
  else none

/-- Failure schedule for the C3 counterexample: the backup rename succeeds,
the copy-in step fails (for instance the disk filled up), and the restoring
rename fails as well; the source discards the restoring error with
`let _ = fs::rename(..)`. -/
def c3flags : IoFlags :=
  { rename_backup_ok := true, copy_backup_ok := true, remove_original_ok := true,
    copy_in_ok := false, restore_rename_ok := false, remove_backup_ok := true }

/-- All-success schedule for the C3 witness. -/
def c3okflags : IoFlags :=
  { rename_backup_ok := true, copy_backup_ok := true, remove_original_ok := true,
    copy_in_ok := true, restore_rename_ok := true, remove_backup_ok := true }

/-! ## Round-trip lemmas for the serde embedding -/

theorem decodeList_map {α : Type} (g : Json → Option α) (f : α → Json)
    (hfg : ∀ a, g (f a) = some a) : ∀ l : List α, decodeList g (l.map f) = some l
  | [] => rfl
  | a :: t => by simp [decodeList, hfg a, decodeList_map g f hfg t]

theorem decodeVideoStream_toJson (v : VideoStream) :
    decodeVideoStream v.toJson = some v := by
  cases v with
  | mk cn w h br =>
    cases br <;>
      simp [VideoStream.toJson, decodeVideoStream, jLookup, Json.asObj, Json.asStr,
        Json.asNat, Json.asOptNum, encOptNum, Rat.den_natCast, Rat.num_natCast]

theorem decodeAudioStream_toJson (a : AudioStream) :
    decodeAudioStream a.toJson = some a := by
  cases a with
  | mk cn ch =>
    simp [AudioStream.toJson, decodeAudioStream, jLookup, Json.asObj, Json.asStr,
      Json.asNat, Rat.den_natCast, Rat.num_natCast]

theorem decodeFormatInfo_toJson (f : FormatInfo) :
    decodeFormatInfo f.toJson = some f := by
  cases f with
  | mk d s =>
    simp [FormatInfo.toJson, decodeFormatInfo, jLookup, Json.asObj, Json.asNum,
      Json.asNat, Rat.den_natCast, Rat.num_natCast]

theorem decodeProbeResult_toJson (p : ProbeResult) :
    decodeProbeResult p.toJson = some p := by
  cases p with
  | mk vs aus fmt =>
    simp [ProbeResult.toJson, decodeProbeResult, jLookup, Json.asObj, Json.asArr,
      decodeList_map decodeVideoStream VideoStream.toJson decodeVideoStream_toJson,
      decodeList_map decodeAudioStream AudioStream.toJson decodeAudioStream_toJson,
      decodeFormatInfo_toJson]

theorem decodeJobStage_serdeName (st : JobStage) :
    decodeJobStage (Json.str st.serdeName) = some st := by
  cases st <;> rfl

theorem decodeJobStatus_serdeName (st : JobStatus) :
    decodeJobStatus (Json.str st.serdeName) = some st := by
  cases st <;> rfl

theorem decodeSourceType_serdeName (st : SourceType) :
    decodeSourceType (Json.str st.serdeName) = some st := by
  cases st <;> rfl

set_option maxHeartbeats 2000000 in
/-- C8: serialising any `Job` to JSON (as `jobs.rs::save_job` does) and
parsing the JSON back (as `jobs.rs::load_jobs` does) yields a `Job` equal to
the original on all fields. -/
theorem C8_job_json_round_trip (job : Job) : decodeJob job.toJson = some job := by
  cases job with
  | mk id ip op stage status st pr ca ua er =>
    cases er <;>
      simp [Job.toJson, decodeJob, jLookup, Json.asObj, Json.asStr, Json.asInt,
        Json.asOptStr, encOptStr, decodeProbeResult_toJson, decodeJobStage_serdeName,
        decodeJobStatus_serdeName, decodeSourceType_serdeName,
        Rat.den_intCast, Rat.num_intCast]

/-! ## Claim C10: fresh-start behaviour of `load_jobs` -/

/-- C10: for every state directory that does not exist on disk, `load_jobs`
returns `Ok` with an empty job list rather than an IO error. -/
theorem C10_load_jobs_missing_dir (dir : StateDir) (h : dir.dir_exists = false) :
    load_jobs dir = Except.ok [] := by
  simp [load_jobs, h]

/-- Witness for C10: a concrete non-existent directory model (with entries
that would be visible if the directory existed). -/
theorem C10_load_jobs_missing_dir_witness :
    load_jobs { dir_exists := false, read_dir_ok := true,
                entries := [("a.json", Json.null)] } = Except.ok [] :=
  C10_load_jobs_missing_dir _ rfl

/-! ## Claim C4: size gate threshold -/

/-- C4: for all byte counts and `max_ratio ∈ (0, 1]`, `check_size_gate`
accepts exactly when `output_bytes < ⌊original_bytes * max_ratio⌋`, and a
zero-byte original is rejected with the infinite actual ratio (`none` in the
embedding of `f32::INFINITY`). -/
theorem C4_size_gate_threshold (original_bytes output_bytes : Nat) (max_ratio : ℚ)
    (hpos : 0 < max_ratio) (hle : max_ratio ≤ 1) :
    (check_size_gate original_bytes output_bytes max_ratio = SizeGateResult.Accept
      ↔ output_bytes < (⌊(original_bytes : ℚ) * max_ratio⌋).toNat)
    ∧ (original_bytes = 0 →
        check_size_gate original_bytes output_bytes max_ratio
          = SizeGateResult.Reject 0 output_bytes none) := by
  constructor
  · unfold check_size_gate
    rcases lt_or_ge output_bytes ((⌊(original_bytes : ℚ) * max_ratio⌋).toNat) with h | h
    · simp [h, Nat.not_le.mpr h]
    · simp [h, Nat.not_lt.mpr h]
  · intro h
    subst h
    unfold check_size_gate
    norm_num

/-- Witness for C4 at `(100, 94, 0.95)` (accepted) and `(0, 0, 0.95)`
(rejected with infinite ratio). -/
theorem C4_size_gate_threshold_witness :
    check_size_gate 100 94 (0.95 : ℚ) = SizeGateResult.Accept
    ∧ check_size_gate 0 0 (0.95 : ℚ) = SizeGateResult.Reject 0 0 none := by
  constructor
  · exact (C4_size_gate_threshold 100 94 (0.95 : ℚ) (by norm_num) (by norm_num)).1.mpr
      (by norm_num)
  · exact (C4_size_gate_threshold 0 0 (0.95 : ℚ) (by norm_num) (by norm_num)).2 rfl

/-! ## Claim C5: admission gate order -/

/-- C5: `check_gates` evaluates the gates in the fixed order (no video
streams, below minimum size, already AV1); the first failing gate determines
the `Skip` reason regardless of downstream conditions, and when no gate fails
the result is `Pass` carrying the probe. -/
theorem C5_gate_order (probe : ProbeResult) (file_size : Nat) (cfg : GatesConfig) :
    (probe.video_streams = [] →
      check_gates probe file_size cfg = GateResult.Skip "no video streams")
    ∧ (probe.video_streams ≠ [] → file_size < cfg.min_bytes →
      check_gates probe file_size cfg =
        GateResult.Skip ("below minimum size (" ++ toString file_size ++ " bytes < "
          ++ toString cfg.min_bytes ++ " bytes)"))
    ∧ (∀ v vs, probe.video_streams = v :: vs → cfg.min_bytes ≤ file_size →
      strContains (lowerStr v.codec_name) "av1" = true →
      check_gates probe file_size cfg = GateResult.Skip "already AV1")
    ∧ (∀ v vs, probe.video_streams = v :: vs → cfg.min_bytes ≤ file_size →
      strContains (lowerStr v.codec_name) "av1" = false →
      check_gates probe file_size cfg = GateResult.Pass probe) := by
  refine ⟨?_, ?_, ?_, ?_⟩
  · intro h
    simp [check_gates, h]
  · intro h hsize
    simp [check_gates, List.isEmpty_iff, h, hsize]
  · intro v vs h hsize hav1
    simp [check_gates, List.isEmpty_iff, h, Nat.not_lt.mpr hsize, hav1]
  · intro v vs h hsize hav1
    simp [check_gates, List.isEmpty_iff, h, Nat.not_lt.mpr hsize, hav1]

/-- Witness for C5: a probe without video streams is skipped with the first
reason, and a large non-AV1 file passes. -/
theorem C5_gate_order_witness :
    check_gates { video_streams := [], audio_streams := [],
                  format := { duration_secs := 0, size_bytes := 0 } } 10
        { min_bytes := 1, max_size_ratio := 0.95, keep_original := false }
      = GateResult.Skip "no video streams" :=
  (C5_gate_order _ 10 _).1 rfl

/-! ## Claim C2: keyword classification -/

/-- C2: for every path and probe, a path whose lowercasing contains a WEB
keyword classifies as web-like, and a path whose lowercasing contains a DISC
keyword but no WEB keyword classifies as disc-like. -/
theorem C2_classifier_keywords (path : String) (probe : ProbeResult) :
    (contains_any_keyword (lowerStr path) WEB_KEYWORDS = true →
      classify_source path probe = SourceType.WebLike)
    ∧ (contains_any_keyword (lowerStr path) DISC_KEYWORDS = true →
       contains_any_keyword (lowerStr path) WEB_KEYWORDS = false →
      classify_source path probe = SourceType.DiscLike) := by
  constructor
  · intro hweb
    simp [classify_source, hweb]
  · intro hdisc hweb
    simp [classify_source, hweb, hdisc]

/-- Witness for C2 on two concrete release names (with an empty probe, so the
bitrate fallback cannot be responsible for the outcome). -/
theorem C2_classifier_keywords_witness :
    classify_source "/media/Movie.2024.WEB-DL.1080p.mkv"
        { video_streams := [], audio_streams := [],
          format := { duration_secs := 0, size_bytes := 0 } } = SourceType.WebLike
    ∧ classify_source "/media/Movie.2024.BluRay.1080p.mkv"
        { video_streams := [], audio_streams := [],
          format := { duration_secs := 0, size_bytes := 0 } } = SourceType.DiscLike :=
  ⟨(C2_classifier_keywords _ _).1 rfl, (C2_classifier_keywords _ _).2 rfl rfl⟩

/-! ## Claim C9: hardware-flag startup enforcement -/

/-- C9 (divergence evidence): with `disallow_hardware_encoding = true` the
startup-check function `assert_software_only` still returns `Ok(())` — it
scans nothing — even though `detect_hardware_flag` recognises `"nvenc"`
inside `"h264_nvenc"` and `check_args_for_hardware_flags` would reject an
argv containing it.  Hence the startup check cannot abort on a flagged
configuration, contradicting the claim (and the requirement quoted in the
doc comment of `assert_software_only` in the source). -/
theorem C9_startup_check_is_stub :
    assert_software_only
        { cpu := { logical_cores := none, target_cpu_utilization := 0.85 },
          av1an := { workers_per_job := 0, max_concurrent_jobs := 0 },
          encoder_safety := { disallow_hardware_encoding := true } } = Except.ok ()
    ∧ detect_hardware_flag "h264_nvenc" = some "nvenc"
    ∧ check_args_for_hardware_flags ["-c:v", "h264_nvenc"] true
        = Except.error (StartupError.HardwareEncodingDetected "nvenc" "h264_nvenc")
    ∧ check_args_for_hardware_flags ["-c:v", "h264_nvenc"] false = Except.ok () :=
  ⟨rfl, rfl, rfl, rfl⟩

/-! ## Claim C6: planner worker/job derivation and overrides -/

/-- C6: for any configuration whose effective core count is at least 1, with
zero overrides the planner derives `av1an_workers = 8` iff `total_cores ≥ 32`
else `4` and `max_concurrent_jobs = 1` iff `total_cores ≥ 24` else `2`; any
positive override appears verbatim (unbounded) in the plan. -/
theorem C6_planner_derivation (cfg : Config) (detected_cores : Nat)
    (h : 1 ≤ cfg.cpu.logical_cores.getD detected_cores) :
    (cfg.av1an.workers_per_job = 0 →
      (ConcurrencyPlan.derive cfg detected_cores).av1an_workers =
        if 32 ≤ (ConcurrencyPlan.derive cfg detected_cores).total_cores then 8 else 4)
    ∧ (cfg.av1an.max_concurrent_jobs = 0 →
      (ConcurrencyPlan.derive cfg detected_cores).max_concurrent_jobs =
        if 24 ≤ (ConcurrencyPlan.derive cfg detected_cores).total_cores then 1 else 2)
    ∧ (0 < cfg.av1an.workers_per_job →
      (ConcurrencyPlan.derive cfg detected_cores).av1an_workers =
        cfg.av1an.workers_per_job)
    ∧ (0 < cfg.av1an.max_concurrent_jobs →
      (ConcurrencyPlan.derive cfg detected_cores).max_concurrent_jobs =
        cfg.av1an.max_concurrent_jobs) := by
  refine ⟨?_, ?_, ?_, ?_⟩ <;> intro hov <;>
    simp [ConcurrencyPlan.derive, derive_workers, derive_max_jobs, hov]

/-- Witness for C6 on a 48-core box without overrides and a 4-core box with
overrides `(workers, jobs) = (13, 9)`. -/
theorem C6_planner_derivation_witness :
    (ConcurrencyPlan.derive
        { cpu := { logical_cores := some 48, target_cpu_utilization := 0.85 },
          av1an := { workers_per_job := 0, max_concurrent_jobs := 0 },
          encoder_safety := { disallow_hardware_encoding := true } } 8).av1an_workers = 8
    ∧ (ConcurrencyPlan.derive
        { cpu := { logical_cores := some 48, target_cpu_utilization := 0.85 },
          av1an := { workers_per_job := 0, max_concurrent_jobs := 0 },
          encoder_safety := { disallow_hardware_encoding := true } } 8).max_concurrent_jobs = 1
    ∧ (ConcurrencyPlan.derive
        { cpu := { logical_cores := some 4, target_cpu_utilization := 0.85 },
          av1an := { workers_per_job := 13, max_concurrent_jobs := 9 },
          encoder_safety := { disallow_hardware_encoding := true } } 8).av1an_workers = 13
    ∧ (ConcurrencyPlan.derive
        { cpu := { logical_cores := some 4, target_cpu_utilization := 0.85 },
          av1an := { workers_per_job := 13, max_concurrent_jobs := 9 },
          encoder_safety := { disallow_hardware_encoding := true } } 8).max_concurrent_jobs = 9 := by
  refine ⟨?_, ?_, ?_, ?_⟩
  · exact ((C6_planner_derivation _ 8 (by norm_num)).1 rfl).trans (by decide)
  · exact ((C6_planner_derivation _ 8 (by norm_num)).2.1 rfl).trans (by decide)
  · exact (C6_planner_derivation _ 8 (by norm_num)).2.2.1 (by norm_num)
  · exact (C6_planner_derivation _ 8 (by norm_num)).2.2.2 (by norm_num)

/-! ## Claim C7: target thread computation and bounds -/

/-- Bounds of `clamp_utilization`: the clamped value is in `[1/2, 1]`. -/
theorem clamp_utilization_bounds (util : ℚ) :
    1 / 2 ≤ clamp_utilization util ∧ clamp_utilization util ≤ 1 := by
  unfold clamp_utilization
  split_ifs with h1 h2 <;> constructor <;> norm_num <;> linarith

/-- C7: for every configuration and raw utilisation, the derived
`target_threads` equals `rustRound (total_cores * clamp(util, 0.5, 1.0))`,
and when the effective core count is at least 1 it is a positive integer at
most `total_cores`. -/
theorem C7_target_threads (cfg : Config) (detected_cores : Nat)
    (h : 1 ≤ cfg.cpu.logical_cores.getD detected_cores) :
    (ConcurrencyPlan.derive cfg detected_cores).target_threads
        = rustRound (((cfg.cpu.logical_cores.getD detected_cores : ℚ))
            * clamp_utilization cfg.cpu.target_cpu_utilization)
    ∧ 1 ≤ (ConcurrencyPlan.derive cfg detected_cores).target_threads
    ∧ (ConcurrencyPlan.derive cfg detected_cores).target_threads
        ≤ cfg.cpu.logical_cores.getD detected_cores := by
  set c : Nat := cfg.cpu.logical_cores.getD detected_cores with hc
  set u : ℚ := clamp_utilization cfg.cpu.target_cpu_utilization with hu
  obtain ⟨hul, huu⟩ := clamp_utilization_bounds cfg.cpu.target_cpu_utilization
  rw [← hu] at hul huu
  have hc1 : (1 : ℚ) ≤ (c : ℚ) := by exact_mod_cast h
  have hfirst : (ConcurrencyPlan.derive cfg detected_cores).target_threads
      = rustRound ((c : ℚ) * u) := rfl
  refine ⟨hfirst, ?_, ?_⟩
  · rw [hfirst]
    unfold rustRound
    have hx : (1 : ℚ) ≤ (c : ℚ) * u + 1 / 2 := by nlinarith
    have hfl : (1 : ℤ) ≤ ⌊(c : ℚ) * u + 1 / 2⌋ := by
      rw [Int.le_floor]
      exact_mod_cast hx
    omega
  · rw [hfirst]
    unfold rustRound
    have hx : (c : ℚ) * u + 1 / 2 < (c : ℚ) + 1 := by nlinarith
    have hfl : ⌊(c : ℚ) * u + 1 / 2⌋ < (c : ℤ) + 1 := by
      rw [Int.floor_lt]
      push_cast
      exact hx
    omega

/-- Witness for C7 on a 32-core configuration with raw utilisation 0.85:
`target_threads = round(32 * 0.85) = 27`. -/
theorem C7_target_threads_witness :
    (ConcurrencyPlan.derive
        { cpu := { logical_cores := some 32, target_cpu_utilization := 0.85 },
          av1an := { workers_per_job := 0, max_concurrent_jobs := 0 },
          encoder_safety := { disallow_hardware_encoding := true } } 8).target_threads
      = rustRound ((32 : ℚ) * clamp_utilization 0.85)
    ∧ 1 ≤ (ConcurrencyPlan.derive
        { cpu := { logical_cores := some 32, target_cpu_utilization := 0.85 },
          av1an := { workers_per_job := 0, max_concurrent_jobs := 0 },
          encoder_safety := { disallow_hardware_encoding := true } } 8).target_threads
    ∧ (ConcurrencyPlan.derive
        { cpu := { logical_cores := some 32, target_cpu_utilization := 0.85 },
          av1an := { workers_per_job := 0, max_concurrent_jobs := 0 },
          encoder_safety := { disallow_hardware_encoding := true } } 8).target_threads ≤ 32 :=
  C7_target_threads
    { cpu := { logical_cores := some 32, target_cpu_utilization := 0.85 },
      av1an := { workers_per_job := 0, max_concurrent_jobs := 0 },
      encoder_safety := { disallow_hardware_encoding := true } } 8 (by norm_num)

/-! ## Claim C1: the `running_jobs` invariant -/

/-- C1 counterexample: after the executor updates metrics for a job in the
`size_gating` stage, `running_jobs` is 0 while the count demanded by the
claim (stages encoding, validating, size_gating, replacing) is 1 — the
source filter omits `"size_gating"`. -/
theorem C1_running_jobs_counterexample :
    (update_job_metrics MetricsSnapshot.default
        { id := "job-1", input_path := "/media/a.mkv", output_path := "/tmp/job-1.mkv",
          state := JobState.SizeGating, total_frames := 0, size_in_bytes_before := 0 } 8).running_jobs
      ≠ spec_running_count
          (update_job_metrics MetricsSnapshot.default
            { id := "job-1", input_path := "/media/a.mkv", output_path := "/tmp/job-1.mkv",
              state := JobState.SizeGating, total_frames := 0, size_in_bytes_before := 0 } 8).jobs := by
  decide

/-- C1 amended: after every job-metrics update performed by the executor,
`running_jobs` equals the number of `JobMetrics` entries whose stage is one
of encoding, validating, replacing (without size_gating). -/
theorem C1_running_jobs_amended (metrics : MetricsSnapshot) (job : ExecutorJob)
    (workers : Nat) :
    (update_job_metrics metrics job workers).running_jobs
      = amended_running_count (update_job_metrics metrics job workers).jobs := rfl

/-! ## Claim C3: atomicity of `atomic_replace` -/

/-- The backup path strictly extends the original path, so the two differ. -/
theorem backup_path_ne (original : String) (timestamp : Nat) :
    backup_path original timestamp ≠ original := by
  intro h
  have hlen : (backup_path original timestamp).length = original.length :=
    congrArg String.length h
  rw [backup_path, String.length_append, String.length_append] at hlen
  have h6 : (".orig." : String).length = 6 := rfl
  omega

/-- C3 amended: for every filesystem, failure schedule and inputs with the
original present, `atomic_replace` leaves either the original bytes at
`original_path`, or the encoded bytes at `original_path`, or — only when the
copy-in step failed and the restoring rename also failed — the original
bytes at the backup path with `original_path` absent and `CopyFailed`
returned; moreover whenever `CopyFailed` is returned and the restoring
rename succeeded, the original bytes are back at `original_path`. -/
theorem C3_atomic_replace_amended (fs : FS) (fl : IoFlags)
    (original_path encoded_path : String) (timestamp : Nat) (keep_original : Bool)
    (origBytes : String)
    (horig : fs original_path = some origBytes)
    (henc1 : encoded_path ≠ original_path)
    (henc2 : encoded_path ≠ backup_path original_path timestamp) :
    ((atomic_replace fs fl original_path encoded_path timestamp keep_original).1 original_path
        = some origBytes
      ∨ (∃ encBytes, fs encoded_path = some encBytes
          ∧ (atomic_replace fs fl original_path encoded_path timestamp keep_original).1
              original_path = some encBytes)
      ∨ ((atomic_replace fs fl original_path encoded_path timestamp keep_original).1
            original_path = none
          ∧ (atomic_replace fs fl original_path encoded_path timestamp keep_original).1
              (backup_path original_path timestamp) = some origBytes
          ∧ (atomic_replace fs fl original_path encoded_path timestamp keep_original).2
              = some ReplaceError.CopyFailed))
    ∧ ((atomic_replace fs fl original_path encoded_path timestamp keep_original).2
          = some ReplaceError.CopyFailed → fl.restore_rename_ok = true →
        (atomic_replace fs fl original_path encoded_path timestamp keep_original).1
            original_path = some origBytes) := by
  have hbo : backup_path original_path timestamp ≠ original_path := backup_path_ne _ _
  have hob : original_path ≠ backup_path original_path timestamp := fun hh => hbo hh.symm
  by_cases hrb : fl.rename_backup_ok
  · rcases hE : fs encoded_path with _ | e
    · by_cases hrr : fl.restore_rename_ok
      · constructor
        · left
          simp [atomic_replace, fsRename, fsCopy, fsRemove, horig, hrb, hE, hrr,
            hbo, hob, henc1, henc2]
        · intro _ _
          simp [atomic_replace, fsRename, fsCopy, fsRemove, horig, hrb, hE, hrr,
            hbo, hob, henc1, henc2]
      · constructor
        · refine Or.inr (Or.inr ⟨?_, ?_, ?_⟩) <;>
            simp [atomic_replace, fsRename, fsCopy, fsRemove, horig, hrb, hE, hrr,
              hbo, hob, henc1, henc2]
        · intro _ hcontra
          simp [hcontra] at hrr
    · by_cases hci : fl.copy_in_ok
      · constructor
        · refine Or.inr (Or.inl ⟨e, rfl, ?_⟩)
          cases keep_original <;> by_cases hdb : fl.remove_backup_ok <;>
            simp [atomic_replace, fsRename, fsCopy, fsRemove, horig, hrb, hE, hci, hdb,
              hbo, hob, henc1, henc2]
        · intro hres _
          exfalso
          revert hres
          cases keep_original <;> by_cases hdb : fl.remove_backup_ok <;>
            simp [atomic_replace, fsRename, fsCopy, fsRemove, horig, hrb, hE, hci, hdb,
              hbo, hob, henc1, henc2]
      · by_cases hrr : fl.restore_rename_ok
        · constructor
          · left
            simp [atomic_replace, fsRename, fsCopy, fsRemove, horig, hrb, hE, hci, hrr,
              hbo, hob, henc1, henc2]
          · intro _ _
            simp [atomic_replace, fsRename, fsCopy, fsRemove, horig, hrb, hE, hci, hrr,
              hbo, hob, henc1, henc2]
        · constructor
          · refine Or.inr (Or.inr ⟨?_, ?_, ?_⟩) <;>
              simp [atomic_replace, fsRename, fsCopy, fsRemove, horig, hrb, hE, hci, hrr,
                hbo, hob, henc1, henc2]
          · intro _ hcontra
            simp [hcontra] at hrr
  · by_cases hcb : fl.copy_backup_ok
    · by_cases hro : fl.remove_original_ok
      · rcases hE : fs encoded_path with _ | e
        · by_cases hrr : fl.restore_rename_ok
          · constructor
            · left
              simp [atomic_replace, fsRename, fsCopy, fsRemove, horig, hrb, hcb, hro,
                hE, hrr, hbo, hob, henc1, henc2]
            · intro _ _
              simp [atomic_replace, fsRename, fsCopy, fsRemove, horig, hrb, hcb, hro,
                hE, hrr, hbo, hob, henc1, henc2]
          · constructor
            · refine Or.inr (Or.inr ⟨?_, ?_, ?_⟩) <;>
                simp [atomic_replace, fsRename, fsCopy, fsRemove, horig, hrb, hcb, hro,
                  hE, hrr, hbo, hob, henc1, henc2]
            · intro _ hcontra
              simp [hcontra] at hrr
        · by_cases hci : fl.copy_in_ok
          · constructor
            · refine Or.inr (Or.inl ⟨e, rfl, ?_⟩)
              cases keep_original <;> by_cases hdb : fl.remove_backup_ok <;>
                simp [atomic_replace, fsRename, fsCopy, fsRemove, horig, hrb, hcb, hro,
                  hE, hci, hdb, hbo, hob, henc1, henc2]
            · intro hres _
              exfalso
              revert hres
              cases keep_original <;> by_cases hdb : fl.remove_backup_ok <;>
                simp [atomic_replace, fsRename, fsCopy, fsRemove, horig, hrb, hcb, hro,
                  hE, hci, hdb, hbo, hob, henc1, henc2]
          · by_cases hrr : fl.restore_rename_ok
            · constructor
              · left
                simp [atomic_replace, fsRename, fsCopy, fsRemove, horig, hrb, hcb, hro,
                  hE, hci, hrr, hbo, hob, henc1, henc2]
              · intro _ _
                simp [atomic_replace, fsRename, fsCopy, fsRemove, horig, hrb, hcb, hro,
                  hE, hci, hrr, hbo, hob, henc1, henc2]
            · constructor
              · refine Or.inr (Or.inr ⟨?_, ?_, ?_⟩) <;>
                  simp [atomic_replace, fsRename, fsCopy, fsRemove, horig, hrb, hcb, hro,
                    hE, hci, hrr, hbo, hob, henc1, henc2]
              · intro _ hcontra
                simp [hcontra] at hrr
      · constructor
        · left
          simp [atomic_replace, fsRename, fsCopy, fsRemove, horig, hrb, hcb, hro,
            hbo, hob, henc1, henc2]
        · intro hres _
          exfalso
          revert hres
          simp [atomic_replace, fsRename, fsCopy, fsRemove, horig, hrb, hcb, hro,
            hbo, hob, henc1, henc2]
    · constructor
      · left
        simp [atomic_replace, fsRename, fsCopy, fsRemove, horig, hrb, hcb,
          hbo, hob, henc1, henc2]
      · intro hres _
        exfalso
        revert hres
        simp [atomic_replace, fsRename, fsCopy, fsRemove, horig, hrb, hcb,
          hbo, hob, henc1, henc2]

/-- C3 counterexample: a failing run of `atomic_replace` that returns
`CopyFailed` and leaves the original path empty — neither the original bytes
nor the new content are at `original_path` (the original survives only at the
backup path), contradicting the claim that the original path is never left
empty. -/
theorem C3_counterexample :
    (atomic_replace c3fs c3flags "/lib/a.mkv" "/tmp/out.mkv" 7 false).1 "/lib/a.mkv" = none
    ∧ (atomic_replace c3fs c3flags "/lib/a.mkv" "/tmp/out.mkv" 7 false).1
        "/lib/a.mkv.orig.7" = some "ORIGINALBYTES"
    ∧ (atomic_replace c3fs c3flags "/lib/a.mkv" "/tmp/out.mkv" 7 false).2
        = some ReplaceError.CopyFailed :=
  ⟨rfl, rfl, rfl⟩

/-- Witness for the amended C3 on a concrete successful run. -/
theorem C3_atomic_replace_amended_witness :
    ((atomic_replace c3fs c3okflags "/lib/a.mkv" "/tmp/out.mkv" 7 false).1 "/lib/a.mkv"
        = some "ORIGINALBYTES"
      ∨ (∃ encBytes, c3fs "/tmp/out.mkv" = some encBytes
          ∧ (atomic_replace c3fs c3okflags "/lib/a.mkv" "/tmp/out.mkv" 7 false).1
              "/lib/a.mkv" = some encBytes)
      ∨ ((atomic_replace c3fs c3okflags "/lib/a.mkv" "/tmp/out.mkv" 7 false).1
            "/lib/a.mkv" = none
          ∧ (atomic_replace c3fs c3okflags "/lib/a.mkv" "/tmp/out.mkv" 7 false).1
              (backup_path "/lib/a.mkv" 7) = some "ORIGINALBYTES"
          ∧ (atomic_replace c3fs c3okflags "/lib/a.mkv" "/tmp/out.mkv" 7 false).2
              = some ReplaceError.CopyFailed))
    ∧ ((atomic_replace c3fs c3okflags "/lib/a.mkv" "/tmp/out.mkv" 7 false).2
          = some ReplaceError.CopyFailed → c3okflags.restore_rename_ok = true →
        (atomic_replace c3fs c3okflags "/lib/a.mkv" "/tmp/out.mkv" 7 false).1
            "/lib/a.mkv" = some "ORIGINALBYTES") :=
  C3_atomic_replace_amended c3fs c3okflags "/lib/a.mkv" "/tmp/out.mkv" 7 false
    "ORIGINALBYTES" rfl (by decide) (by decide)
